import Mathlib

/-!
Verification development for the conversational restaurant-search backend.

Each Python definition referenced by the specification is shallowly embedded
as a Lean definition.  Numeric values (decimal literals, true division,
float comparisons) are modelled exactly with `PyRat`, an unreduced fraction
`num/den` compared by cross multiplication, so that every concrete
evaluation reduces inside the kernel; the Haversine distance, a claim about
real trigonometry, is modelled over `ℝ`.  Timestamps are abstract `Int`
values threaded explicitly.  Fallible operations return `Option`.
-/

set_option maxRecDepth 8000

/-! ## Exact fraction arithmetic

`PyRat` models the exact value of a Python numeric literal or of the
results of the arithmetic the embedded code performs (`/ 1000`, unary
minus).  Comparisons are by cross multiplication, i.e. value comparisons,
matching Python `==` / `<` / `<=` on numbers.  Every constructor used in
this file keeps the denominator positive.
-/

structure PyRat where
  num : Int
  den : Nat
  deriving DecidableEq, Repr

/-- Embed an integer. -/
def PyRat.ofInt (n : Int) : PyRat := ⟨n, 1⟩

/-- Value equality (Python `==` on numbers). -/
def PyRat.eqv (a b : PyRat) : Bool := a.num * (b.den : Int) = b.num * (a.den : Int)

/-- Value order (Python `<=`). -/
def PyRat.le (a b : PyRat) : Bool := a.num * (b.den : Int) ≤ b.num * (a.den : Int)

/-- Value order (Python `<`). -/
def PyRat.lt (a b : PyRat) : Bool := a.num * (b.den : Int) < b.num * (a.den : Int)

/-- Negation (Python unary minus). -/
def PyRat.neg (a : PyRat) : PyRat := ⟨-a.num, a.den⟩

/-- True division (Python `/`), keeping the denominator positive. -/
def PyRat.div (a b : PyRat) : PyRat :=
  if 0 ≤ b.num then ⟨a.num * (b.den : Int), a.den * b.num.toNat⟩
  else ⟨-(a.num * (b.den : Int)), a.den * (-b.num).toNat⟩

/-- The mathematical value of a `PyRat`, used to relate the embedding to
`ℚ` in universally quantified statements. -/
def PyRat.val (a : PyRat) : ℚ := (a.num : ℚ) / (a.den : ℚ)

/-! ## Python-style string primitives

The source manipulates Python strings with `replace`, `split`, `startswith`
and the `in` substring test.  We implement these over `List Char` with
structural (fuel-indexed) recursion so that every use reduces inside the
kernel.  The fuel is always instantiated with the length of the text plus
one, which is sufficient because each step consumes at least one character.
-/

/-- All-occurrence replacement, mirroring Python `str.replace`. -/
def replaceAllAux : Nat → List Char → List Char → List Char → List Char
  | 0, _, _, _ => []
  | _ + 1, _, _, [] => []
  | n + 1, pat, rep, c :: rest =>
    if pat ≠ [] ∧ pat.isPrefixOf (c :: rest) then
      rep ++ replaceAllAux n pat rep ((c :: rest).drop pat.length)
    else
      c :: replaceAllAux n pat rep rest

/-- Python `s.replace(pat, rep)` (replaces every occurrence). -/
def pyReplace (s pat rep : String) : String :=
  ⟨replaceAllAux (s.data.length + 1) pat.data rep.data s.data⟩

/-- Splitting helper, mirroring Python `str.split(sep)` for non-empty `sep`. -/
def splitOnListAux : Nat → List Char → List Char → List Char → List (List Char)
  | 0, _, acc, _ => [acc.reverse]
  | n + 1, sep, acc, text =>
    if sep ≠ [] ∧ sep.isPrefixOf text then
      acc.reverse :: splitOnListAux n sep [] (text.drop sep.length)
    else
      match text with
      | [] => [acc.reverse]
      | c :: rest => splitOnListAux n sep (c :: acc) rest

/-- Python `s.split(sep)` for a non-empty separator. -/
def pySplit (s sep : String) : List String :=
  (splitOnListAux (s.data.length + 1) sep.data [] s.data).map fun l => ⟨l⟩

/-- Substring test over character lists. -/
def hasSubstr (pat : List Char) : List Char → Bool
  | [] => pat.isPrefixOf []
  | c :: rest => pat.isPrefixOf (c :: rest) || hasSubstr pat rest

/-- Python `sub in s`. -/
def pyContains (s sub : String) : Bool :=
  hasSubstr sub.data s.data

/-- Python `s.startswith(pre)`. -/
def pyStartsWith (s pre : String) : Bool :=
  pre.data.isPrefixOf s.data

/-- Numeric value of a digit list, most significant first. -/
def digitsToNat (l : List Char) : Nat :=
  l.foldl (fun acc c => acc * 10 + (c.toNat - 48)) 0

/-- Whether every character is an ASCII decimal digit. -/
def allDigits (l : List Char) : Bool :=
  l.all fun c => c.isDigit

/-- Python `float(s)` restricted to plain signed decimal numerals
(`digits`, `digits.digits`, `.digits`, `digits.`), the only forms the
coordinate parser is exercised with; every other input yields `none`,
modelling the `ValueError` branch. -/
def pyFloat (s : String) : Option PyRat :=
  match s.data with
  | [] => none
  | c :: rest =>
    let (sign, body) : Int × List Char :=
      if c = '-' then (-1, rest) else if c = '+' then (1, rest) else (1, c :: rest)
    match splitOnListAux (body.length + 1) ['.'] [] body with
    | [intPart] =>
      if intPart ≠ [] ∧ allDigits intPart then
        some ⟨sign * (digitsToNat intPart : Int), 1⟩
      else none
    | [intPart, fracPart] =>
      if (intPart ≠ [] ∨ fracPart ≠ []) ∧ allDigits intPart ∧ allDigits fracPart then
        some ⟨sign * ((digitsToNat intPart : Int) * (10 ^ fracPart.length : Nat) +
          (digitsToNat fracPart : Int)), 10 ^ fracPart.length⟩
      else none
    | _ => none

/-! ## Geo utilities (`src/utils/geo.py`) -/

/-- `models.requests.LocationCoordinates`: a validated coordinate pair. -/
structure LocationCoordinates where
  latitude : PyRat
  longitude : PyRat
  deriving DecidableEq, Repr

/-- `GeoUtils.is_valid_coordinates`. -/
def is_valid_coordinates (latitude longitude : PyRat) : Bool :=
  ((PyRat.ofInt (-90)).le latitude && latitude.le (PyRat.ofInt 90)) &&
  ((PyRat.ofInt (-180)).le longitude && longitude.le (PyRat.ofInt 180))

/-- `GeoUtils.parse_coordinates_string`: parses `"25.0330,121.5654"` and
`"lat:25.0330,lng:121.5654"` shaped strings (spaces removed first), returning
`none` on any parse failure or out-of-range pair. -/
def parse_coordinates_string (coord_str : String) : Option LocationCoordinates :=
  if coord_str = "" then none
  else
    let s := pyReplace coord_str " " ""
    let pair : Option (PyRat × PyRat) :=
      if pyContains s "lat:" ∧ pyContains s "lng:" then
        let parts := pySplit s ","
        match parts.find? (fun p => pyStartsWith p "lat:"),
              parts.find? (fun p => pyStartsWith p "lng:") with
        | some latPart, some lngPart =>
          match pyFloat (pyReplace latPart "lat:" ""),
                pyFloat (pyReplace lngPart "lng:" "") with
          | some la, some lo => some (la, lo)
          | _, _ => none
        | _, _ => none
      else
        let parts := pySplit s ","
        if parts.length ≠ 2 then none
        else
          match pyFloat (parts.getD 0 ""), pyFloat (parts.getD 1 "") with
          | some la, some lo => some (la, lo)
          | _, _ => none
    match pair with
    | some (la, lo) =>
      if is_valid_coordinates la lo then some ⟨la, lo⟩ else none
    | none => none

/-- `GeoUtils.calculate_distance`: the Haversine great-circle distance in
kilometres (Earth radius 6371), over real numbers. -/
noncomputable def calculate_distance (lat1 lon1 lat2 lon2 : ℝ) : ℝ :=
  2 * Real.arcsin (Real.sqrt (
    Real.sin ((lat2 * (Real.pi / 180) - lat1 * (Real.pi / 180)) / 2) ^ 2 +
    Real.cos (lat1 * (Real.pi / 180)) * Real.cos (lat2 * (Real.pi / 180)) *
      Real.sin ((lon2 * (Real.pi / 180) - lon1 * (Real.pi / 180)) / 2) ^ 2)) * 6371

/-! ## Location normalizer (`src/shared/utils/location_handler.py`) -/

/-- The untyped location input accepted by the handler: `None`, a string,
or a structured coordinate object. -/
inductive PyLocation where
  | pyNone
  | str (s : String)
  | coords (c : LocationCoordinates)
  deriving DecidableEq, Repr

/-- The tagged union produced by `LocationHandler.process_location`. -/
inductive NormalizedLocation where
  | noneTag
  | address (a : String)
  | coordinates (lat lon : PyRat)
  | unknown
  deriving DecidableEq, Repr

/-- `LocationHandler.process_location`. -/
def process_location : PyLocation → NormalizedLocation
  | .pyNone => .noneTag
  | .str s =>
    match parse_coordinates_string s with
    | some c => .coordinates c.latitude c.longitude
    | none => .address s
  | .coords c => .coordinates c.latitude c.longitude

/-- The `"type"` field of the location dict built by `process_location`. -/
def locationTypeTag : NormalizedLocation → String
  | .noneTag => "none"
  | .address _ => "address"
  | .coordinates _ _ => "coordinates"
  | .unknown => "unknown"

/-- `LocationHandler.DEFAULT_RADIUS` (kilometres, keyed by location type). -/
def DEFAULT_RADIUS : List (String × PyRat) :=
  [("coordinates", PyRat.ofInt 5), ("address", PyRat.ofInt 10),
   ("none", PyRat.ofInt 15)]

/-- `LocationHandler.get_search_radius_km`: dictionary lookup on the tag
with fallback `15.0`. -/
def get_search_radius_km (loc : NormalizedLocation) : PyRat :=
  ((DEFAULT_RADIUS.lookup (locationTypeTag loc)).getD (PyRat.ofInt 15))

/-! ## Database repository limit clamp
(`src/app/repositories/database_restaurant_repo.py`) -/

/-- Default of the `limit` parameter of
`DatabaseRestaurantRepository.search_restaurants`. -/
def search_restaurants_default_limit : Int := 20

/-- The limit actually used by `_build_search_query`:
`limit = min(max(1, limit), 100)`. -/
def build_search_query_limit (limit : Int) : Int :=
  min (max 1 limit) 100

/-- The `LIMIT` clause emitted by `_build_search_query`. -/
def build_search_query_limit_clause (limit : Int) : String :=
  "LIMIT " ++ toString (build_search_query_limit limit)

/-! ## Restaurant data model and in-memory fixture
(`src/services/restaurant_service.py`) -/

/-- `models.definitions.Restaurant` as constructed by
`RestaurantRepository.__init__` (services variant). -/
structure Restaurant where
  id : String
  name : String
  cuisine : String
  distance_km : Option PyRat
  rating : PyRat
  price_level : Int
  tags : List String
  address : String
  phone : String
  latitude : Option PyRat
  longitude : Option PyRat
  description : String
  deriving DecidableEq, Repr

/-- `RestaurantTag.CLASSIC.value`. -/
def RestaurantTag_CLASSIC : String := "經典"

/-- `RestaurantTag.NEW_FLAVOR.value`. -/
def RestaurantTag_NEW_FLAVOR : String := "新口味"

/-- Fixture restaurant `"1"` 築地壽司: Japanese, 2.5 km, tags 經典/壽司. -/
def tsukijiSushi : Restaurant :=
  ⟨"1", "築地壽司", "日式", some ⟨25, 10⟩, ⟨45, 10⟩, 3, ["經典", "壽司"],
    "台北市大安區忠孝東路四段100號", "02-1234-5678",
    some ⟨250418, 10000⟩, some ⟨1215440, 10000⟩, "正宗日式壽司，新鮮食材"⟩

/-- Fixture restaurant `"2"` 新宿拉麵: Japanese, 1.8 km, tags 新口味/拉麵. -/
def shinjukuRamen : Restaurant :=
  ⟨"2", "新宿拉麵", "日式", some ⟨18, 10⟩, ⟨42, 10⟩, 2, ["新口味", "拉麵"],
    "台北市信義區信義路五段7號", "02-2345-6789",
    some ⟨250330, 10000⟩, some ⟨1215654, 10000⟩, "創新日式拉麵，口味獨特"⟩

/-- Fixture restaurant `"3"` 川味軒: Sichuan, 3.2 km, tags 經典/辣味. -/
def chuanWeiXuan : Restaurant :=
  ⟨"3", "川味軒", "川菜", some ⟨32, 10⟩, ⟨43, 10⟩, 2, ["經典", "辣味"],
    "台北市中山區南京東路二段76號", "02-3456-7890",
    some ⟨250520, 10000⟩, some ⟨1215347, 10000⟩, "道地川菜，香辣過癮"⟩

/-- Fixture restaurant `"4"` 義式風情: Italian, 2.8 km, tags 經典/義式. -/
def yiShiFengQing : Restaurant :=
  ⟨"4", "義式風情", "義大利菜", some ⟨28, 10⟩, ⟨46, 10⟩, 3, ["經典", "義式"],
    "台北市大安區敦化南路一段187號", "02-4567-8901",
    some ⟨250405, 10000⟩, some ⟨1215487, 10000⟩, "正宗義大利料理，浪漫氛圍"⟩

/-- The fixed four-restaurant fixture built in
`RestaurantRepository.__init__`. -/
def repository_restaurants : List Restaurant :=
  [tsukijiSushi, shinjukuRamen, chuanWeiXuan, yiShiFengQing]

/-- An arbitrary Python value, as carried by a keyword argument whose key
does not name one of the typed dataclass fields. -/
inductive PyValue where
  | int (n : Int)
  | str (s : String)
  | bool (b : Bool)
  | pyNone
  deriving DecidableEq, Repr

/-- Python truthiness of a `PyValue`. -/
def pyValueTruthy : PyValue → Bool
  | .int n => n ≠ 0
  | .str s => s ≠ ""
  | .bool b => b
  | .pyNone => false

/-- Overwrite-or-append on an association list, mirroring Python
`setattr` writing into an instance `__dict__`. -/
def assocSet : List (String × PyValue) → String → PyValue → List (String × PyValue)
  | [], k, v => [(k, v)]
  | (k2, v2) :: rest, k, v =>
    if k2 = k then (k, v) :: rest else (k2, v2) :: assocSet rest k v

/-- Lookup in an instance `__dict__`. -/
def assocGet : List (String × PyValue) → String → Option PyValue
  | [], _ => none
  | (k2, v2) :: rest, k => if k2 = k then some v2 else assocGet rest k

/-- `models.data_models.SearchCriteria`; `created_at` is the abstract
timestamp recorded by the dataclass default factory.  `shadow` is the part
of the instance `__dict__` beyond the five dataclass fields: instance
attributes written by `setattr` under a key that names a non-field
attribute of the class (its methods), shadowing that attribute; it is
empty on every construction by `SearchCriteria()`. -/
structure SearchCriteria where
  radius : Option Int
  cuisine : Option String
  meals : Option String
  try_new : Bool
  created_at : Int
  shadow : List (String × PyValue)
  deriving DecidableEq, Repr

/-- `SearchCriteria()` built with all defaults at time `now`:
`radius=None, cuisine=None, meals=None, try_new=False` (and no shadowed
instance attributes). -/
def SearchCriteria.init (now : Int) : SearchCriteria :=
  ⟨none, none, none, false, now, []⟩

/-- The non-field attributes of the `SearchCriteria` class: its two
methods.  `hasattr(self.data, key)` is true for these names (inherited
dunder attributes behave identically and are omitted; they are not
reachable through the extracted-criteria keyword paths). -/
def CRITERIA_METHOD_ATTRS : List String := ["is_complete", "get_missing_fields"]

/-- Python truthiness of an optional integer field. -/
def pyTruthyOptInt : Option Int → Bool
  | none => false
  | some n => n ≠ 0

/-- Python truthiness of an optional string field. -/
def pyTruthyOptStr : Option String → Bool
  | none => false
  | some s => s ≠ ""

/-- Strict tuple order on the sort key `(x.distance_km, -x.rating)` used by
`find_by_criteria`; the filtered records always carry numeric distances. -/
def restaurantKeyLt (a b : Restaurant) : Bool :=
  let da := a.distance_km.getD (PyRat.ofInt 0)
  let db := b.distance_km.getD (PyRat.ofInt 0)
  PyRat.lt da db || (PyRat.eqv da db && PyRat.lt a.rating.neg b.rating.neg)

/-- Stable insertion: the new element goes before the first entry that is
not strictly smaller, matching the stability of Python `sorted`. -/
def insertSortedBy (lt : α → α → Bool) (x : α) : List α → List α
  | [] => [x]
  | y :: ys => if lt y x then y :: insertSortedBy lt x ys else x :: y :: ys

/-- Stable sort by a strict comparison, matching Python `sorted(key=...)`. -/
def sortBy (lt : α → α → Bool) : List α → List α
  | [] => []
  | x :: xs => insertSortedBy lt x (sortBy lt xs)

/-- `RestaurantRepository.find_by_criteria` (services variant): guard on
truthy radius and cuisine, filter by `distance_km <= radius/1000`, exact
cuisine match, and the `try_new`-selected tag, then sort by
`(distance_km, -rating)`. -/
def find_by_criteria (self_restaurants : List Restaurant)
    (criteria : SearchCriteria) : List Restaurant :=
  if ¬ pyTruthyOptInt criteria.radius ∨ ¬ pyTruthyOptStr criteria.cuisine then []
  else
    let distance_km := (PyRat.ofInt (criteria.radius.getD 0)).div (PyRat.ofInt 1000)
    let results := self_restaurants.filter fun restaurant =>
      (match restaurant.distance_km with
       | some d =>
         PyRat.le d distance_km && (restaurant.cuisine == criteria.cuisine.getD "")
       | none => false) &&
      (if criteria.try_new then restaurant.tags.contains RestaurantTag_NEW_FLAVOR
       else restaurant.tags.contains RestaurantTag_CLASSIC)
    sortBy restaurantKeyLt results

/-! ## User session (`src/app/models/user_session.py`) -/

/-- `models.data_models.ChatMessage`. -/
structure ChatMessage where
  role : String
  content : String
  timestamp : Int
  deriving DecidableEq, Repr

/-- `UserSession`: message history plus accumulated criteria and
timestamps. -/
structure UserSession where
  user_id : String
  data : SearchCriteria
  history : List ChatMessage
  created_at : Int
  updated_at : Int
  deriving DecidableEq, Repr

/-- `UserSession.add_message` followed by `_update_timestamp`. -/
def add_message (s : UserSession) (role content : String) (now : Int) : UserSession :=
  { s with history := s.history ++ [⟨role, content, now⟩], updated_at := now }

/-- `UserSession.clear_history`. -/
def clear_history (s : UserSession) (now : Int) : UserSession :=
  { s with history := [], updated_at := now }

/-- `UserSession.reset_search_criteria`: replaces the criteria with a fresh
default `SearchCriteria()`. -/
def reset_search_criteria (s : UserSession) (now : Int) : UserSession :=
  { s with data := SearchCriteria.init now, updated_at := now }

/-- `UserSession.prepare_for_new_conversation`: clear history, reset
criteria, then append the `"新對話開始"` system marker message. -/
def prepare_for_new_conversation (s : UserSession) (now : Int) : UserSession :=
  add_message (reset_search_criteria (clear_history s now) now) "system" "新對話開始" now

/-- `routes._cleanup_session`: `clear_history`, `reset_search_criteria`,
then `prepare_for_new_conversation`. -/
def cleanup_session (s : UserSession) (now : Int) : UserSession :=
  prepare_for_new_conversation (reset_search_criteria (clear_history s now) now) now

/-- `UserSession.is_fresh_conversation`: no user-role messages. -/
def is_fresh_conversation (s : UserSession) : Bool :=
  (s.history.filter fun m => m.role == "user").length == 0

/-- One keyword argument of `update_search_criteria`: either one of the
five dataclass fields with a value of its declared type (the form every
caller in the source supplies for these keys), or any other key carrying
an arbitrary value. -/
inductive CriteriaKV where
  | radius (v : Option Int)
  | cuisine (v : Option String)
  | meals (v : Option String)
  | try_new (v : Bool)
  | created_at (v : Int)
  | other (key : String) (v : PyValue)
  deriving DecidableEq, Repr

/-- The key string of a keyword argument (used by the `"radius" in
search_params` membership tests in the routes). -/
def kvKey : CriteriaKV → String
  | .radius _ => "radius"
  | .cuisine _ => "cuisine"
  | .meals _ => "meals"
  | .try_new _ => "try_new"
  | .created_at _ => "created_at"
  | .other k _ => k

/-- The body of the `update_search_criteria` loop: `if hasattr(self.data,
key): setattr(self.data, key, value)`.  A field key overwrites its field.
A non-field key passes the `hasattr` gate exactly when it names an
existing class attribute (a method, see `CRITERIA_METHOD_ATTRS`), in which
case `setattr` writes an instance attribute shadowing it; a key naming no
attribute fails `hasattr` and is a no-op. -/
def setattrCriteria (c : SearchCriteria) : CriteriaKV → SearchCriteria
  | .radius v => { c with radius := v }
  | .cuisine v => { c with cuisine := v }
  | .meals v => { c with meals := v }
  | .try_new v => { c with try_new := v }
  | .created_at v => { c with created_at := v }
  | .other key v =>
    if key ∈ CRITERIA_METHOD_ATTRS then { c with shadow := assocSet c.shadow key v }
    else c

/-- `UserSession.update_search_criteria(**kwargs)`: fold the loop body over
the keyword arguments, then `_update_timestamp`. -/
def update_search_criteria (s : UserSession) (kwargs : List CriteriaKV)
    (now : Int) : UserSession :=
  { s with data := kwargs.foldl setattrCriteria s.data, updated_at := now }

/-! ## Intent analysis and the search-route fallback branch
(`src/app/services/ai_service.py`, `src/app/api/routes.py`) -/

/-- The intent-analysis dictionary produced by `analyze_user_intent`: on
the success path it is the JSON object returned by the model, on the
failure path the canned record below.  `user_intent` is optional because
the fallback-produced dictionary omits the key. -/
structure IntentAnalysis where
  success : Bool
  confidence : PyRat
  extracted_info : List CriteriaKV
  missing_info : List String
  user_intent : Option String
  deriving DecidableEq, Repr

/-- The JSON-decoding step of `GeminiAIService.analyze_user_intent`:
`none` models a model response that is not valid JSON
(`json.JSONDecodeError`), in which case the canned structured failure is
returned instead of raising. -/
def analyze_user_intent_result (parsed : Option IntentAnalysis) : IntentAnalysis :=
  match parsed with
  | some r => r
  | none =>
    ⟨false, PyRat.ofInt 0, [], ["所有必要信息"], some "無法解析用戶意圖"⟩

/-- `SearchResponseModel`, restricted to the fields the claims are about
(`type`, `message`, `recommendations`, `missing_fields`); the open
diagnostic metadata map is not modelled. -/
structure SearchResponseModel where
  type : String
  message : String
  recommendations : List Restaurant
  missing_fields : List String
  deriving DecidableEq, Repr

/-- Outcome of the `legacy_restaurant_search` model call made by
`_handle_analysis_failure`: the call raised, or returned `text`;
`params` is `some kwargs` exactly when `json.loads(text)` yields an
object, and `none` when it raises `json.JSONDecodeError`. -/
inductive LegacyOutcome where
  | raised
  | reply (text : String) (params : Option (List CriteriaKV))
  deriving DecidableEq, Repr

/-- Value returned by `_handle_analysis_failure`: either the synthesized
analysis dictionary (legacy reply parsed to search parameters) or a
`SearchResponseModel`; paired with the session as mutated so far. -/
inductive FallbackReturn where
  | analysis (a : IntentAnalysis) (s : UserSession)
  | response (r : SearchResponseModel) (s : UserSession)
  deriving DecidableEq, Repr

/-- `routes._handle_analysis_failure`: append the user message, run the
legacy model call, and either synthesize a success analysis (legacy reply
parsed as JSON with both `radius` and `cuisine`), or reply with a partial
clarification response carrying the legacy text, or — if the legacy call
itself raised — a canned error response. -/
def handle_analysis_failure (s : UserSession) (user_input : String)
    (legacy : LegacyOutcome) (now : Int) : FallbackReturn :=
  match legacy with
  | .raised =>
    .response
      ⟨"error", "抱歉，我現在無法理解您的需求，請重新描述您想要的餐廳類型。", [], []⟩
      (add_message s "user" user_input now)
  | .reply text params =>
    match params with
    | some kvs =>
      if "radius" ∈ kvs.map kvKey ∧ "cuisine" ∈ kvs.map kvKey then
        .analysis ⟨true, ⟨8, 10⟩, kvs, [], none⟩
          (update_search_criteria (add_message s "user" user_input now) kvs now)
      else
        .response ⟨"partial", text, [], ["需要更多信息"]⟩
          (add_message (add_message s "user" user_input now) "assistant" text now)
    | none =>
      .response ⟨"partial", text, [], ["需要更多信息"]⟩
        (add_message (add_message s "user" user_input now) "assistant" text now)

/-- Dispatch outcome of the first steps of the `/search` route. -/
inductive RouteStep where
  | fallback (r : FallbackReturn)
  | proceed (analysis : IntentAnalysis)
  deriving DecidableEq, Repr

/-- The analysis branch of `routes.search_restaurants`: run
`analyze_user_intent` on the (possibly non-JSON) model output; when
`success` is falsy, return through `_handle_analysis_failure`, otherwise
proceed with the extracted analysis. -/
def search_route_dispatch (s : UserSession) (user_input : String)
    (modelOutput : Option IntentAnalysis) (legacy : LegacyOutcome)
    (now : Int) : RouteStep :=
  let analysis := analyze_user_intent_result modelOutput
  if analysis.success then .proceed analysis
  else .fallback (handle_analysis_failure s user_input legacy now)

/-! ## Missing-required-fields policy (`src/app/api/routes.py`) -/

/-- `RestaurantDomainKnowledge.REQUIRED_FIELDS`. -/
def REQUIRED_FIELDS : List String := ["radius", "cuisine"]

/-- One iteration of the `missing_required` comprehension:
`field not in current_data or not current_data[field]` evaluated against
`user_session.data.__dict__` (the five dataclass fields are always
present, so only falsiness matters for them; any other name is in the
dict exactly when a shadowing instance attribute was written for it,
otherwise "not in"). -/
def criteriaFieldFalsy (c : SearchCriteria) (f : String) : Bool :=
  if f = "radius" then match c.radius with | none => true | some n => n = 0
  else if f = "cuisine" then match c.cuisine with | none => true | some s => s = ""
  else if f = "meals" then match c.meals with | none => true | some s => s = ""
  else if f = "try_new" then !c.try_new
  else if f = "created_at" then false
  else match assocGet c.shadow f with
    | some v => !pyValueTruthy v
    | none => true

/-- The `0.8` confidence threshold literal. -/
def confidence_threshold : PyRat := ⟨8, 10⟩

/-- `routes._get_missing_required_fields`: required fields that are absent
or falsy, plus the model-declared `missing_info` when
`ai_analysis.get("confidence", 0.0) < 0.8`. -/
def get_missing_required_fields (c : SearchCriteria)
    (missing_info : List String) (confidence : Option PyRat) : List String :=
  (REQUIRED_FIELDS.filter fun f => criteriaFieldFalsy c f) ++
    (if PyRat.lt ((confidence.getD (PyRat.ofInt 0))) confidence_threshold
     then missing_info else [])

/-! ## In-memory session store (`src/shared/utils/in_memory_repo.py`) -/

/-- `InMemorySessionRepository` state: the `sessions` dict (association
list keyed by user id) and the configured inactivity timeout in seconds. -/
structure SessionRepoState where
  sessions : List (String × UserSession)
  session_timeout : Int
  deriving DecidableEq, Repr

/-- `InMemorySessionRepository._cleanup_expired`: delete every session with
`(now - s.updated_at).total_seconds() > session_timeout`. -/
def cleanup_expired (st : SessionRepoState) (now : Int) : SessionRepoState :=
  { st with sessions :=
      st.sessions.filter fun p => ¬ (now - p.2.updated_at > st.session_timeout) }

/-- `InMemorySessionRepository.get`: cleanup first, then dictionary get. -/
def repo_get (st : SessionRepoState) (user_id : String) (now : Int) :
    Option UserSession × SessionRepoState :=
  let st1 := cleanup_expired st now
  (st1.sessions.lookup user_id, st1)

/-- `InMemorySessionRepository.list_all`: cleanup first, then a copy of the
dict. -/
def repo_list_all (st : SessionRepoState) (now : Int) :
    List (String × UserSession) × SessionRepoState :=
  let st1 := cleanup_expired st now
  (st1.sessions, st1)

/-! ## Claim theorems -/

/-- The C1 criteria: radius 3000 m, cuisine 日式, `try_new` at its default
`False` (criteria timestamp abstracted to 0). -/
def c1_criteria : SearchCriteria := ⟨some 3000, some "日式", none, false, 0, []⟩

/-- C1 (counterexample): with radius 3000 m and cuisine 日式 at the default
`try_new=False`, `find_by_criteria` on the fixture does NOT return the two
Japanese restaurants ordered [1.8, 2.5]: 新宿拉麵 (1.8 km) carries no 經典
tag and is filtered out by the tag test. -/
theorem c1_find_by_criteria_claimed_pair_refuted :
    find_by_criteria repository_restaurants c1_criteria ≠
      [shinjukuRamen, tsukijiSushi] := by decide

/-- C1 (amended): the same query returns exactly the single classic-tagged
Japanese restaurant within radius, 築地壽司 at 2.5 km, because with
`try_new=False` only restaurants tagged 經典 pass the tag filter. -/
theorem c1_find_by_criteria_classic_only :
    find_by_criteria repository_restaurants c1_criteria = [tsukijiSushi] := by
  decide

/-- A session mid-conversation, used to exhibit the C2 counterexample. -/
def c2_sample_session : UserSession :=
  ⟨"u1", SearchCriteria.init 0, [⟨"user", "我想找餐廳", 1⟩], 0, 1⟩

/-- C2 (counterexample): after the completed-state cleanup the history
length is not 0 — `prepare_for_new_conversation` appends a system marker
message after clearing. -/
theorem c2_history_not_empty :
    ¬ ((cleanup_session c2_sample_session 2).history.length = 0) := by decide

/-- C2 (amended): after the completed-state cleanup the history consists of
exactly the one system marker message `"新對話開始"` (length 1, so no user
or assistant messages remain), and the criteria equal the post-reset
defaults `radius=None, cuisine=None, try_new=False`; the session still
reports as a fresh conversation since no user-role message remains. -/
theorem c2_cleanup_session_state (s : UserSession) (now : Int) :
    (cleanup_session s now).history = [⟨"system", "新對話開始", now⟩] ∧
    (cleanup_session s now).data.radius = none ∧
    (cleanup_session s now).data.cuisine = none ∧
    (cleanup_session s now).data.try_new = false ∧
    (cleanup_session s now).updated_at = now ∧
    is_fresh_conversation (cleanup_session s now) = true := by
  simp [cleanup_session, prepare_for_new_conversation, add_message,
    reset_search_criteria, clear_history, SearchCriteria.init,
    is_fresh_conversation]

/-- C3 (counterexample): a string in the claimed second format
`"lat: ..., lon: ..."` is not parsed as coordinates — the code only accepts
the key `lng:`, so the whole string is tagged as an address. -/
theorem c3_lat_lon_format_not_parsed :
    process_location (.str "lat: 25.0330, lon: 121.5654") =
      .address "lat: 25.0330, lon: 121.5654" ∧
    ∀ la lo, process_location (.str "lat: 25.0330, lon: 121.5654") ≠
      .coordinates la lo := by
  have he : process_location (.str "lat: 25.0330, lon: 121.5654") =
      .address "lat: 25.0330, lon: 121.5654" := by decide
  exact ⟨he, fun la lo h => absurd (he.symm.trans h) (by simp)⟩

/-- C3 (amended): for every string input the normalizer attempts the
coordinate formats `"lat,lon"` and `"lat: ..., lng: ..."` (optional
whitespace); on success it returns the coordinates tag with the parsed
pair and on failure the address tag carrying the whole original string;
in particular `"25.0330,121.5654"` yields coordinates (25.0330, 121.5654)
and `"台北市信義區"` yields the address tag. -/
theorem c3_process_location_string_spec (s : String) :
    (parse_coordinates_string s = none → process_location (.str s) = .address s) ∧
    (∀ c, parse_coordinates_string s = some c →
      process_location (.str s) = .coordinates c.latitude c.longitude) ∧
    process_location (.str "25.0330,121.5654") =
      .coordinates ⟨250330, 10000⟩ ⟨1215654, 10000⟩ ∧
    process_location (.str "台北市信義區") = .address "台北市信義區" ∧
    process_location (.str "lat:25.0330,lng:121.5654") =
      .coordinates ⟨250330, 10000⟩ ⟨1215654, 10000⟩ := by
  refine ⟨?_, ?_, by decide, by decide, by decide⟩
  · intro h; simp [process_location, h]
  · intro c h; simp [process_location, h]

/-- Witness for the C3 theorem at the concrete address-shaped input. -/
theorem c3_process_location_string_spec_witness :
    process_location (.str "信義區") = .address "信義區" :=
  (c3_process_location_string_spec "信義區").1 (by decide)

/-- C5 (counterexample): on non-JSON model output the extractor's
`missing_info` is the sentinel `["所有必要信息"]`, which does not contain
the required field names `radius` and `cuisine`. -/
theorem c5_missing_info_lacks_required_fields :
    ¬ ∀ f ∈ REQUIRED_FIELDS, f ∈ (analyze_user_intent_result none).missing_info := by
  decide

/-- C5 (amended): for every model output that is not valid JSON the
extractor returns the structured failure `success=false`, confidence 0,
empty extraction, `missing_info = ["所有必要信息"]` (a sentinel standing
for all required information) instead of raising; the route then always
takes the fallback branch, whose outcome splits in three: a legacy reply
that does not parse as JSON with both `radius` and `cuisine` yields a
partial clarification response carrying the legacy text; a failed legacy
call yields a canned error response; and a legacy reply that does parse
as JSON with both `radius` and `cuisine` makes the route return the
synthesized analysis dictionary itself (after updating the session
criteria) — a value that is not a `SearchResponseModel`, so that path
fails the route's response-model validation instead of producing one of
the conversational responses. -/
theorem c5_nonjson_intent_fallback (s : UserSession) (input text : String)
    (now : Int) :
    (analyze_user_intent_result none).success = false ∧
    (analyze_user_intent_result none).confidence = PyRat.ofInt 0 ∧
    (analyze_user_intent_result none).missing_info = ["所有必要信息"] ∧
    (analyze_user_intent_result none).extracted_info = [] ∧
    (∀ legacy, search_route_dispatch s input none legacy now =
      .fallback (handle_analysis_failure s input legacy now)) ∧
    (∃ s2, handle_analysis_failure s input (.reply text none) now =
      .response ⟨"partial", text, [], ["需要更多信息"]⟩ s2) ∧
    (∃ s2, handle_analysis_failure s input .raised now =
      .response
        ⟨"error", "抱歉，我現在無法理解您的需求，請重新描述您想要的餐廳類型。",
          [], []⟩ s2) ∧
    (∀ kvs, "radius" ∈ kvs.map kvKey → "cuisine" ∈ kvs.map kvKey →
      ∃ s2, handle_analysis_failure s input (.reply text (some kvs)) now =
        .analysis ⟨true, ⟨8, 10⟩, kvs, [], none⟩ s2) ∧
    (∀ kvs, ("radius" ∉ kvs.map kvKey ∨ "cuisine" ∉ kvs.map kvKey) →
      ∃ s2, handle_analysis_failure s input (.reply text (some kvs)) now =
        .response ⟨"partial", text, [], ["需要更多信息"]⟩ s2) := by
  refine ⟨rfl, rfl, rfl, rfl, fun legacy => rfl, ⟨_, rfl⟩, ⟨_, rfl⟩, ?_, ?_⟩
  · intro kvs h1 h2
    refine ⟨update_search_criteria (add_message s "user" input now) kvs now, ?_⟩
    simp only [handle_analysis_failure]
    rw [if_pos ⟨h1, h2⟩]
  · intro kvs h
    refine ⟨add_message (add_message s "user" input now) "assistant" text now, ?_⟩
    have hn : ¬("radius" ∈ kvs.map kvKey ∧ "cuisine" ∈ kvs.map kvKey) := by
      rcases h with h | h
      · exact fun hc => h hc.1
      · exact fun hc => h hc.2
    simp only [handle_analysis_failure]
    rw [if_neg hn]

/-- Witness for the C5 theorem: a legacy JSON reply carrying both radius
and cuisine makes the fallback return the synthesized analysis dictionary,
not a response model. -/
theorem c5_nonjson_intent_fallback_witness :
    ∃ s2, handle_analysis_failure
      ⟨"u5", SearchCriteria.init 0, [], 0, 0⟩ "附近有什麼日式餐廳"
      (.reply "radius 2000 cuisine 日式"
        (some [CriteriaKV.radius (some 2000), CriteriaKV.cuisine (some "日式")])) 3 =
      .analysis ⟨true, ⟨8, 10⟩,
        [CriteriaKV.radius (some 2000), CriteriaKV.cuisine (some "日式")],
        [], none⟩ s2 :=
  (c5_nonjson_intent_fallback ⟨"u5", SearchCriteria.init 0, [], 0, 0⟩
      "附近有什麼日式餐廳" "radius 2000 cuisine 日式" 3
    ).2.2.2.2.2.2.2.1
    [CriteriaKV.radius (some 2000), CriteriaKV.cuisine (some "日式")]
    (by decide) (by decide)

/-- C7: the limit applied by the query builder is the caller-supplied limit
clamped to [1,100]; an in-range limit is passed through unchanged, and the
default when the caller supplies none is 20 (also the clause rendered). -/
theorem c7_limit_clamped (l : Int) :
    1 ≤ build_search_query_limit l ∧
    build_search_query_limit l ≤ 100 ∧
    (1 ≤ l → l ≤ 100 → build_search_query_limit l = l) ∧
    (l < 1 → build_search_query_limit l = 1) ∧
    (100 < l → build_search_query_limit l = 100) ∧
    build_search_query_limit search_restaurants_default_limit = 20 ∧
    build_search_query_limit_clause search_restaurants_default_limit =
      "LIMIT 20" := by
  refine ⟨?_, ?_, fun h1 h2 => ?_, fun h1 => ?_, fun h1 => ?_,
    by decide, by decide⟩ <;>
    (unfold build_search_query_limit; omega)

/-- Witness for the C7 theorem: an in-range limit of 50 is applied
unchanged. -/
theorem c7_limit_clamped_witness :
    ((1:Int) ≤ 50 ∧ (50:Int) ≤ 100) ∧ build_search_query_limit 50 = 50 :=
  ⟨by decide, (c7_limit_clamped 50).2.2.1 (by decide) (by decide)⟩

/-- C8: the derived default search radius is exactly 5 km for the
coordinates tag, 10 km for the address tag, and 15 km for the none and
unknown tags. -/
theorem c8_default_radius_by_tag :
    (∀ la lo, get_search_radius_km (.coordinates la lo) = PyRat.ofInt 5) ∧
    (∀ a, get_search_radius_km (.address a) = PyRat.ofInt 10) ∧
    get_search_radius_km .noneTag = PyRat.ofInt 15 ∧
    get_search_radius_km .unknown = PyRat.ofInt 15 :=
  ⟨fun _ _ => rfl, fun _ => rfl, rfl, rfl⟩

/-- C4: cuisine and radius are mandatory (an absent or falsy value puts the
field name in the result); the model-declared `missing_info` entries are
appended exactly when the reported confidence (0.0 when absent) is below
0.8, so that a low-confidence analysis forces another clarification turn
even when the mandatory fields were extracted; with high confidence only
mandatory-field names can appear. -/
theorem c4_missing_required_fields_policy (c : SearchCriteria)
    (missing_info : List String) (confidence : Option PyRat) :
    (c.radius = none ∨ c.radius = some 0 →
      "radius" ∈ get_missing_required_fields c missing_info confidence) ∧
    (c.cuisine = none ∨ c.cuisine = some "" →
      "cuisine" ∈ get_missing_required_fields c missing_info confidence) ∧
    (PyRat.lt (confidence.getD (PyRat.ofInt 0)) confidence_threshold = true →
      ∀ m ∈ missing_info,
        m ∈ get_missing_required_fields c missing_info confidence) ∧
    (¬ PyRat.lt (confidence.getD (PyRat.ofInt 0)) confidence_threshold = true →
      ∀ m ∈ get_missing_required_fields c missing_info confidence,
        m ∈ REQUIRED_FIELDS) ∧
    (get_missing_required_fields c missing_info none =
      get_missing_required_fields c missing_info (some (PyRat.ofInt 0))) ∧
    (criteriaFieldFalsy c "radius" = false →
      criteriaFieldFalsy c "cuisine" = false →
      ¬ PyRat.lt (confidence.getD (PyRat.ofInt 0)) confidence_threshold = true →
      get_missing_required_fields c missing_info confidence = []) ∧
    (criteriaFieldFalsy c "radius" = false →
      criteriaFieldFalsy c "cuisine" = false →
      PyRat.lt (confidence.getD (PyRat.ofInt 0)) confidence_threshold = true →
      missing_info ≠ [] →
      get_missing_required_fields c missing_info confidence ≠ []) := by
  refine ⟨?_, ?_, ?_, ?_, rfl, ?_, ?_⟩
  · intro h
    have hr : criteriaFieldFalsy c "radius" = true := by
      rcases h with h | h <;> simp [criteriaFieldFalsy, h]
    exact List.mem_append_left _
      (by simp [REQUIRED_FIELDS, List.mem_filter, hr])
  · intro h
    have hcu : criteriaFieldFalsy c "cuisine" = true := by
      rcases h with h | h <;> simp [criteriaFieldFalsy, h]
    exact List.mem_append_left _
      (by simp [REQUIRED_FIELDS, List.mem_filter, hcu])
  · intro hconf m hm
    unfold get_missing_required_fields
    rw [if_pos hconf]
    exact List.mem_append_right _ hm
  · intro hconf m hm
    unfold get_missing_required_fields at hm
    rw [if_neg hconf] at hm
    simp only [List.append_nil] at hm
    exact List.mem_of_mem_filter hm
  · intro h1 h2 h3
    unfold get_missing_required_fields
    rw [if_neg h3]
    simp [REQUIRED_FIELDS, h1, h2]
  · intro h1 h2 h3 h4
    unfold get_missing_required_fields
    rw [if_pos h3]
    simp [REQUIRED_FIELDS, h1, h2, h4]

/-- Witness for the C4 theorem: with no radius extracted, confidence absent
and one model-declared missing entry, both the mandatory field name and the
model-declared entry appear. -/
theorem c4_missing_required_fields_policy_witness :
    ((⟨none, some "日式", none, false, 0, []⟩ : SearchCriteria).radius = none ∨
      (⟨none, some "日式", none, false, 0, []⟩ : SearchCriteria).radius = some 0) ∧
    "radius" ∈ get_missing_required_fields
      ⟨none, some "日式", none, false, 0, []⟩ ["atmosphere"] none :=
  ⟨Or.inl rfl,
    (c4_missing_required_fields_policy
      ⟨none, some "日式", none, false, 0, []⟩ ["atmosphere"] none).1 (Or.inl rfl)⟩

/-- Last supplied value for one criteria attribute among the keyword
arguments (later keyword arguments override earlier ones). -/
def lastValue (f : CriteriaKV → Option α) : List CriteriaKV → Option α
  | [] => none
  | kv :: rest =>
    match lastValue f rest with
    | some v => some v
    | none => f kv

/-- Value carried by a `radius` keyword argument. -/
def kvRadiusVal : CriteriaKV → Option (Option Int)
  | .radius v => some v
  | _ => none

/-- Value carried by a `cuisine` keyword argument. -/
def kvCuisineVal : CriteriaKV → Option (Option String)
  | .cuisine v => some v
  | _ => none

/-- Value carried by a `meals` keyword argument. -/
def kvMealsVal : CriteriaKV → Option (Option String)
  | .meals v => some v
  | _ => none

/-- Value carried by a `try_new` keyword argument. -/
def kvTryNewVal : CriteriaKV → Option Bool
  | .try_new v => some v
  | _ => none

/-- Value carried by a `created_at` keyword argument. -/
def kvCreatedAtVal : CriteriaKV → Option Int
  | .created_at v => some v
  | _ => none

/-- Whether a keyword argument has a key that names no attribute of the
criteria object at all (neither a dataclass field nor a method), so that
`hasattr(self.data, key)` is false. -/
def kvIsUnrecognized : CriteriaKV → Bool
  | .other k _ => decide (k ∉ CRITERIA_METHOD_ATTRS)
  | _ => false

theorem foldl_setattr_radius (kvs : List CriteriaKV) (c : SearchCriteria) :
    (kvs.foldl setattrCriteria c).radius =
      (lastValue kvRadiusVal kvs).getD c.radius := by
  induction kvs generalizing c with
  | nil => rfl
  | cons kv rest ih =>
    simp only [List.foldl_cons, lastValue]
    cases h : lastValue kvRadiusVal rest with
    | some v => simp [ih, h]
    | none =>
      cases kv <;>
        simp [ih, h, setattrCriteria, kvRadiusVal, apply_ite SearchCriteria.radius]

theorem foldl_setattr_cuisine (kvs : List CriteriaKV) (c : SearchCriteria) :
    (kvs.foldl setattrCriteria c).cuisine =
      (lastValue kvCuisineVal kvs).getD c.cuisine := by
  induction kvs generalizing c with
  | nil => rfl
  | cons kv rest ih =>
    simp only [List.foldl_cons, lastValue]
    cases h : lastValue kvCuisineVal rest with
    | some v => simp [ih, h]
    | none =>
      cases kv <;>
        simp [ih, h, setattrCriteria, kvCuisineVal, apply_ite SearchCriteria.cuisine]

theorem foldl_setattr_meals (kvs : List CriteriaKV) (c : SearchCriteria) :
    (kvs.foldl setattrCriteria c).meals =
      (lastValue kvMealsVal kvs).getD c.meals := by
  induction kvs generalizing c with
  | nil => rfl
  | cons kv rest ih =>
    simp only [List.foldl_cons, lastValue]
    cases h : lastValue kvMealsVal rest with
    | some v => simp [ih, h]
    | none =>
      cases kv <;>
        simp [ih, h, setattrCriteria, kvMealsVal, apply_ite SearchCriteria.meals]

theorem foldl_setattr_try_new (kvs : List CriteriaKV) (c : SearchCriteria) :
    (kvs.foldl setattrCriteria c).try_new =
      (lastValue kvTryNewVal kvs).getD c.try_new := by
  induction kvs generalizing c with
  | nil => rfl
  | cons kv rest ih =>
    simp only [List.foldl_cons, lastValue]
    cases h : lastValue kvTryNewVal rest with
    | some v => simp [ih, h]
    | none =>
      cases kv <;>
        simp [ih, h, setattrCriteria, kvTryNewVal, apply_ite SearchCriteria.try_new]

theorem foldl_setattr_created_at (kvs : List CriteriaKV) (c : SearchCriteria) :
    (kvs.foldl setattrCriteria c).created_at =
      (lastValue kvCreatedAtVal kvs).getD c.created_at := by
  induction kvs generalizing c with
  | nil => rfl
  | cons kv rest ih =>
    simp only [List.foldl_cons, lastValue]
    cases h : lastValue kvCreatedAtVal rest with
    | some v => simp [ih, h]
    | none =>
      cases kv <;>
        simp [ih, h, setattrCriteria, kvCreatedAtVal, apply_ite SearchCriteria.created_at]

theorem foldl_setattr_unrecognized (kvs : List CriteriaKV) (c : SearchCriteria)
    (h : ∀ kv ∈ kvs, kvIsUnrecognized kv = true) :
    kvs.foldl setattrCriteria c = c := by
  induction kvs generalizing c with
  | nil => rfl
  | cons kv rest ih =>
    have hk := h kv (List.mem_cons_self kv rest)
    have ht := fun x hx => h x (List.mem_cons_of_mem kv hx)
    cases kv with
    | other k v =>
      simp only [kvIsUnrecognized, decide_eq_true_eq] at hk
      simp only [List.foldl_cons]
      rw [show setattrCriteria c (.other k v) = c by simp [setattrCriteria, hk]]
      exact ih c ht
    | radius v => simp [kvIsUnrecognized] at hk
    | cuisine v => simp [kvIsUnrecognized] at hk
    | meals v => simp [kvIsUnrecognized] at hk
    | try_new v => simp [kvIsUnrecognized] at hk
    | created_at v => simp [kvIsUnrecognized] at hk

/-- Sample session used to exhibit the C9 counterexample. -/
def c9_sample_session : UserSession :=
  ⟨"u9", ⟨some 2000, some "日式", none, false, 0, []⟩, [], 0, 0⟩

/-- C9 (counterexample): a keyword whose key names a non-field attribute of
the criteria dataclass — `is_complete` is a method, so `hasattr` is true —
is NOT silently ignored: `setattr` writes a shadowing instance attribute
into the record's `__dict__`, so the criteria record does not remain
unchanged as the claim requires for every key that is not an existing
field. -/
theorem c9_method_key_not_ignored :
    (update_search_criteria c9_sample_session
      [CriteriaKV.other "is_complete" (PyValue.bool true)] 5).data.shadow =
      [("is_complete", PyValue.bool true)] ∧
    (update_search_criteria c9_sample_session
      [CriteriaKV.other "is_complete" (PyValue.bool true)] 5).data ≠
      c9_sample_session.data := by decide

/-- C9 (amended): `update_search_criteria` refreshes the session timestamp
and leaves the history and identity untouched; it sets exactly those
supplied keys that name existing attributes of the criteria object — a
dataclass-field key sets that field to the last value supplied for it and
leaves it unchanged otherwise, while a key naming a non-field attribute
(a method, e.g. `is_complete`) passes the `hasattr` gate and `setattr`
shadows the method with an instance attribute — and a key naming no
attribute at all is silently ignored and adds no attribute. -/
theorem c9_update_criteria_spec (s : UserSession) (kwargs : List CriteriaKV)
    (now : Int) :
    (update_search_criteria s kwargs now).updated_at = now ∧
    (update_search_criteria s kwargs now).history = s.history ∧
    (update_search_criteria s kwargs now).user_id = s.user_id ∧
    (update_search_criteria s kwargs now).created_at = s.created_at ∧
    (update_search_criteria s kwargs now).data.radius =
      (lastValue kvRadiusVal kwargs).getD s.data.radius ∧
    (update_search_criteria s kwargs now).data.cuisine =
      (lastValue kvCuisineVal kwargs).getD s.data.cuisine ∧
    (update_search_criteria s kwargs now).data.meals =
      (lastValue kvMealsVal kwargs).getD s.data.meals ∧
    (update_search_criteria s kwargs now).data.try_new =
      (lastValue kvTryNewVal kwargs).getD s.data.try_new ∧
    (update_search_criteria s kwargs now).data.created_at =
      (lastValue kvCreatedAtVal kwargs).getD s.data.created_at ∧
    ((∀ kv ∈ kwargs, kvIsUnrecognized kv = true) →
      (update_search_criteria s kwargs now).data = s.data) ∧
    (∀ k v, k ∈ CRITERIA_METHOD_ATTRS →
      (update_search_criteria s [CriteriaKV.other k v] now).data =
        { s.data with shadow := assocSet s.data.shadow k v }) ∧
    (∀ k v, k ∉ CRITERIA_METHOD_ATTRS →
      (update_search_criteria s [CriteriaKV.other k v] now).data = s.data) :=
  ⟨rfl, rfl, rfl, rfl,
    foldl_setattr_radius kwargs s.data,
    foldl_setattr_cuisine kwargs s.data,
    foldl_setattr_meals kwargs s.data,
    foldl_setattr_try_new kwargs s.data,
    foldl_setattr_created_at kwargs s.data,
    fun h => foldl_setattr_unrecognized kwargs s.data h,
    fun k v hk => by simp [update_search_criteria, setattrCriteria, hk],
    fun k v hk => by simp [update_search_criteria, setattrCriteria, hk]⟩

/-- Witness for the C9 theorem: the method-named key `get_missing_fields`
passes the `hasattr` gate and its value lands in the shadow dict. -/
theorem c9_update_criteria_spec_witness :
    ("get_missing_fields" ∈ CRITERIA_METHOD_ATTRS) ∧
    (update_search_criteria
      ⟨"u1", ⟨some 2000, some "日式", none, false, 0, []⟩, [], 0, 0⟩
      [CriteriaKV.other "get_missing_fields" (PyValue.int 4)] 9).data =
      ⟨some 2000, some "日式", none, false, 0,
        [("get_missing_fields", PyValue.int 4)]⟩ :=
  ⟨by decide,
    (c9_update_criteria_spec
      ⟨"u1", ⟨some 2000, some "日式", none, false, 0, []⟩, [], 0, 0⟩
      [CriteriaKV.other "get_missing_fields" (PyValue.int 4)] 9
      ).2.2.2.2.2.2.2.2.2.2.1 "get_missing_fields" (PyValue.int 4) (by decide)⟩

/-- A key found by `List.lookup` is a member of the association list. -/
theorem mem_of_lookup_eq_some {l : List (String × UserSession)} {k : String}
    {u : UserSession} (h : l.lookup k = some u) : (k, u) ∈ l := by
  induction l with
  | nil => simp [List.lookup] at h
  | cons a t ih =>
    obtain ⟨k2, v⟩ := a
    rw [List.lookup] at h
    by_cases hk : k = k2
    · subst hk
      simp at h
      subst h
      exact List.mem_cons_self _ _
    · rw [beq_eq_false_iff_ne.mpr hk] at h
      exact List.mem_cons_of_mem _ (ih h)

/-- With pairwise distinct keys (the Python dict invariant), a key
determines its value in the association list. -/
theorem value_unique_of_nodup_keys {l : List (String × UserSession)}
    (hnd : (l.map Prod.fst).Nodup) {k : String} {u w : UserSession}
    (hu : (k, u) ∈ l) (hw : (k, w) ∈ l) : u = w := by
  induction l with
  | nil => simp at hu
  | cons a t ih =>
    rw [List.map_cons, List.nodup_cons] at hnd
    rcases List.mem_cons.mp hu with hu1 | hu1 <;>
      rcases List.mem_cons.mp hw with hw1 | hw1
    · rw [← hu1] at hw1
      exact (Prod.mk.injEq _ _ _ _ ▸ hw1).2.symm
    · have hk : a.1 = k := by rw [← hu1]
      exact absurd (by rw [hk]; exact List.mem_map_of_mem Prod.fst hw1) hnd.1
    · have hk : a.1 = k := by rw [← hw1]
      exact absurd (by rw [hk]; exact List.mem_map_of_mem Prod.fst hu1) hnd.1
    · exact ih hnd.2 hu1 hw1

/-- C10: the in-memory session store enforces expiry lazily on every read:
any session returned by `get` or `list_all` has `updated_at` within the
configured timeout of `now`, and (given the dict invariant of distinct
keys) `get` on a session whose `updated_at` is more than the timeout
before `now` returns `None` without any explicit eviction call. -/
theorem c10_lazy_expiry (st : SessionRepoState) (uid : String) (now : Int) :
    (∀ u, (repo_get st uid now).1 = some u →
      now - u.updated_at ≤ st.session_timeout) ∧
    (∀ p ∈ (repo_list_all st now).1,
      now - p.2.updated_at ≤ st.session_timeout) ∧
    ((st.sessions.map Prod.fst).Nodup →
      ∀ u, st.sessions.lookup uid = some u →
        now - u.updated_at > st.session_timeout →
        (repo_get st uid now).1 = none) := by
  refine ⟨?_, ?_, ?_⟩
  · intro u h
    have hmem : (uid, u) ∈ (cleanup_expired st now).sessions :=
      mem_of_lookup_eq_some h
    have := (List.mem_filter.mp hmem).2
    simp only [decide_eq_true_eq] at this
    omega
  · intro p hp
    have := (List.mem_filter.mp hp).2
    simp only [decide_eq_true_eq] at this
    omega
  · intro hnd u hlk hexp
    cases hfk : (cleanup_expired st now).sessions.lookup uid with
    | none => exact hfk
    | some w =>
      have hmemf : (uid, w) ∈ (cleanup_expired st now).sessions :=
        mem_of_lookup_eq_some hfk
      have hmem := List.mem_filter.mp hmemf
      have hwu : w = u :=
        value_unique_of_nodup_keys hnd hmem.1 (mem_of_lookup_eq_some hlk)
      have hkeep := hmem.2
      simp only [decide_eq_true_eq] at hkeep
      rw [hwu] at hkeep
      omega

/-- Witness for the C10 theorem: a session last touched at time 0 with
timeout 10 is no longer returned at time 100. -/
theorem c10_lazy_expiry_witness :
    (repo_get ⟨[("u", ⟨"u", SearchCriteria.init 0, [], 0, 0⟩)], 10⟩
      "u" 100).1 = none :=
  (c10_lazy_expiry ⟨[("u", ⟨"u", SearchCriteria.init 0, [], 0, 0⟩)], 10⟩
      "u" 100).2.2 (by decide) ⟨"u", SearchCriteria.init 0, [], 0, 0⟩
    (by decide) (by decide)

/-- The squared sine of a half-difference is symmetric in its endpoints. -/
theorem sin_sq_half_sub_comm (x y : ℝ) :
    Real.sin ((x - y) / 2) ^ 2 = Real.sin ((y - x) / 2) ^ 2 := by
  have h : (x - y) / 2 = -((y - x) / 2) := by ring
  rw [h, Real.sin_neg]
  ring

/-- C6: for valid coordinates, the Haversine distance from a point to
itself is 0 and the distance is symmetric in its two endpoints. -/
theorem c6_haversine_self_zero_and_symm (lat1 lon1 lat2 lon2 : ℝ)
    (_h1 : -90 ≤ lat1 ∧ lat1 ≤ 90) (_h2 : -180 ≤ lon1 ∧ lon1 ≤ 180)
    (_h3 : -90 ≤ lat2 ∧ lat2 ≤ 90) (_h4 : -180 ≤ lon2 ∧ lon2 ≤ 180) :
    calculate_distance lat1 lon1 lat1 lon1 = 0 ∧
    calculate_distance lat1 lon1 lat2 lon2 =
      calculate_distance lat2 lon2 lat1 lon1 := by
  constructor
  · unfold calculate_distance
    simp
  · unfold calculate_distance
    rw [sin_sq_half_sub_comm (lat2 * (Real.pi / 180)) (lat1 * (Real.pi / 180)),
      sin_sq_half_sub_comm (lon2 * (Real.pi / 180)) (lon1 * (Real.pi / 180)),
      mul_comm (Real.cos (lat1 * (Real.pi / 180)))
        (Real.cos (lat2 * (Real.pi / 180)))]

/-- Witness for the C6 theorem at the concrete coordinates (25,121) and
(26,122). -/
theorem c6_haversine_self_zero_and_symm_witness :
    ((-90 ≤ (25:ℝ) ∧ (25:ℝ) ≤ 90) ∧ (-180 ≤ (121:ℝ) ∧ (121:ℝ) ≤ 180) ∧
      (-90 ≤ (26:ℝ) ∧ (26:ℝ) ≤ 90) ∧ (-180 ≤ (122:ℝ) ∧ (122:ℝ) ≤ 180)) ∧
    calculate_distance 25 121 25 121 = 0 ∧
    calculate_distance 25 121 26 122 = calculate_distance 26 122 25 121 :=
  ⟨⟨⟨by norm_num, by norm_num⟩, ⟨by norm_num, by norm_num⟩,
    ⟨by norm_num, by norm_num⟩, ⟨by norm_num, by norm_num⟩⟩,
    c6_haversine_self_zero_and_symm 25 121 26 122
      ⟨by norm_num, by norm_num⟩ ⟨by norm_num, by norm_num⟩
      ⟨by norm_num, by norm_num⟩ ⟨by norm_num, by norm_num⟩⟩
